import Mathlib

set_option maxRecDepth 100000

/-!
Verification of the Mental Health Companion repository.

Shallow embedding of the frontend mock services that implement the mood
store and the chat pipeline:
  * `src/src/services/moodService.ts` (mock mode, `useMockData = true`):
    `createEntry`, `getEntries`, `updateEntry`, `deleteEntry`, `getTrendData`.
  * `src/frontend/src/components/Chat/AIChatInterface.tsx`, both revisions:
    the mock revision (`detectCrisis`, `callAIAPI`, `handleSendMessage`)
    and the streaming revision (`callAIAPIStream` event loop,
    `handleSendMessage` with abort handling).
  * `src/frontend/src/components/Visualization/MoodTrendChart.tsx`:
    `getTotalEntries`.
  * `src/db/sql/schema.sql`: the `mood_score` CHECK constraint.

Modelling conventions:
  * JS `number` timestamps (milliseconds since the epoch) are `Int`.
  * JS `number` scores/averages are `ℚ` (exact arithmetic; all scores in
    play are small integers so no float rounding is observable).
  * The local timezone is modelled by a fixed offset `shift` in
    milliseconds added to a UTC instant to obtain local wall-clock time
    (JS `getTimezoneOffset() = -shift/60000`); no DST transitions.
  * The `YYYY-MM-DD` string produced by `toISOString().split('T')[0]` is
    modelled by the UTC day number `t.fdiv 86400000`, which determines it
    injectively for instants in the JS date range, and likewise the
    display string of a bucket is modelled by that day number.
  * `Array.prototype.sort` with comparator `(a, b) => b.ts - a.ts` is
    modelled by the stable `List.insertionSort` on the corresponding
    total preorder (ECMAScript sort is required to be stable).
-/

namespace MHC

/-- Milliseconds in one day. -/
def msPerDay : Int := 86400000

/-- UTC calendar day number of an instant (what the `YYYY-MM-DD` part of
`toISOString()` determines). `Int.fdiv` floors, as date truncation does. -/
def utcDayOf (t : Int) : Int := t.fdiv msPerDay

/-- Local calendar day number of an instant under fixed offset `shift`. -/
def localDayOf (shift t : Int) : Int := (t + shift).fdiv msPerDay

/-- Instant of local midnight of the local day containing `t`
(the effect of `setHours(0, 0, 0, 0)` on a `Date` holding `t`). -/
def localMidnight (shift t : Int) : Int := localDayOf shift t * msPerDay - shift

/-- Structure `MoodEntry` from `src/frontend/src/types/mood.types.ts` as used by
`moodService.ts`: id, userId, moodScore, optional note, timestamp. -/
structure MoodEntry where
  id : String
  userId : String
  moodScore : ℚ
  note : Option String
  timestamp : Int
  deriving Repr, DecidableEq

/-- Structure `MoodTrendData`: bucket returned by `getTrendData`: display date
(modelled by the UTC day number), average score, and the optional
`entryCount` field the frontend chart reads (never set by the service). -/
structure MoodTrendData where
  date : Int
  moodScore : ℚ
  entryCount : Option Nat
  deriving Repr, DecidableEq

/-- The data a caller supplies to `createEntry`
(`Omit<MoodEntry, 'id' | 'userId' | 'timestamp'>`). -/
structure MoodEntryData where
  moodScore : ℚ
  note : Option String
  deriving Repr, DecidableEq

/-- The `CHECK (mood_score >= 1 AND mood_score <= 10)` constraint on
`MoodEntries` in `src/db/sql/schema.sql`. -/
def schemaMoodScoreCheck (s : ℚ) : Prop := 1 ≤ s ∧ s ≤ 10

instance (s : ℚ) : Decidable (schemaMoodScoreCheck s) := by
  unfold schemaMoodScoreCheck; infer_instance

/-- Function `createEntry` (mock path): appends a fresh entry with id
`entry-${Date.now()}`, userId `user-1`, timestamp `now`, and returns it.
No validation of any kind is performed. Result is the returned entry
paired with the store written back by `moodStorage.set`. -/
def createEntry (store : List MoodEntry) (data : MoodEntryData) (now : Int) :
    MoodEntry × List MoodEntry :=
  let newEntry : MoodEntry :=
    { id := "entry-" ++ toString now
      userId := "user-1"
      moodScore := data.moodScore
      note := data.note
      timestamp := now }
  (newEntry, store ++ [newEntry])

/-- The comparator `(a, b) => b.timestamp.getTime() - a.timestamp.getTime()`
as the corresponding total preorder: `a` sorts no later than `b` iff
`b.timestamp ≤ a.timestamp` (descending timestamps). -/
def tsDescOrder (a b : MoodEntry) : Prop := b.timestamp ≤ a.timestamp

instance : DecidableRel tsDescOrder := fun a b => by
  unfold tsDescOrder; infer_instance

/-- Function `getEntries` (mock path): sort all stored entries by timestamp
descending; `limit ? sorted.slice(0, limit) : sorted` — note that a limit
of `0` is falsy in JS and returns everything. -/
def getEntries (store : List MoodEntry) (limit : Option Nat) : List MoodEntry :=
  let sorted := store.insertionSort tsDescOrder
  match limit with
  | none => sorted
  | some n => if n = 0 then sorted else sorted.take n

/-- Function `updateEntry` (mock path): look the id up with `findIndex`; throw
`Entry not found` when absent, otherwise merge `data` into the entry in
place and write the store back. The merge `{ ...entries[index], ...data }`
replaces `moodScore` and `note` (the fields of `MoodEntryData`). Result:
the updated entry and the written store, or the thrown message. -/
def updateEntry (store : List MoodEntry) (id : String) (data : MoodEntryData) :
    Except String (MoodEntry × List MoodEntry) :=
  match store.findIdx? (fun e => e.id = id) with
  | none => .error "Entry not found"
  | some index =>
    match store.get? index with
    | none => .error "Entry not found"
    | some e =>
      let updatedEntry : MoodEntry :=
        { e with moodScore := data.moodScore, note := data.note }
      .ok (updatedEntry, store.set index updatedEntry)

/-- Function `deleteEntry` (mock path): write back `entries.filter(e => e.id !== id)`.
Never fails. -/
def deleteEntry (store : List MoodEntry) (id : String) : List MoodEntry :=
  store.filter (fun e => !(e.id = id : Bool))

/-- The two values of the `range` parameter of `getTrendData`. -/
inductive TrendRange where
  | week
  | month
  deriving Repr, DecidableEq

/-- The day count `range === 'week' ? 7 : 30`. -/
def trendDays : TrendRange → Nat
  | .week => 7
  | .month => 30

/-- JS `Math.round`: round half toward positive infinity. -/
def jsRound (q : ℚ) : Int := ⌊q + 1/2⌋

/-- The operation `Math.round(x * 10) / 10`: round to one decimal place. -/
def round1 (q : ℚ) : ℚ := (jsRound (q * 10) : ℚ) / 10

/-- First-occurrence deduplication of a key list: the insertion-order key
set of a JS object populated by `groupedByDate[dateKey] = []` for each
generated key (re-assigning an existing key does not add a second slot,
and `Object.entries` iterates non-index string keys in first-insertion
order). -/
def dedupKeepFirstAux : Nat → List Int → List Int
  | _, [] => []
  | 0, _ :: _ => []
  | fuel + 1, k :: ks =>
    k :: dedupKeepFirstAux fuel (ks.filter (fun x => !(x = k : Bool)))

def dedupKeepFirst (l : List Int) : List Int := dedupKeepFirstAux l.length l

/-- Average-or-zero for one bucket:
`scores.length > 0 ? Math.round((sum/len)*10)/10 : 0`. -/
def bucketScore (scores : List ℚ) : ℚ :=
  if scores.length > 0 then round1 (scores.sum / (scores.length : ℚ)) else 0

/-- Function `getTrendData` (source lines 164–192 of `moodService.ts`):
sorted entries are filtered to `timestamp >= startDate` where `startDate`
is local midnight `days - 1` days ago; buckets are keyed by the
`toISOString` (UTC) date of each of the `days` consecutive local
midnights; each filtered entry is pushed onto the bucket whose key equals
the UTC date of its timestamp, if that key exists; buckets map to
`{ date, moodScore }` (no `entryCount`). -/
def getTrendData (store : List MoodEntry) (range : TrendRange)
    (now shift : Int) : List MoodTrendData :=
  let entries := getEntries store none
  let days := trendDays range
  let startDate : Int := localMidnight shift now - ((days : Int) - 1) * msPerDay
  let filteredEntries := entries.filter (fun e => decide (startDate ≤ e.timestamp))
  let keys := dedupKeepFirst
    ((List.range days).map (fun (i : Nat) => utcDayOf (startDate + (i : Int) * msPerDay)))
  keys.map (fun k =>
    let scores := (filteredEntries.filter
      (fun e => decide (utcDayOf e.timestamp = k))).map (fun e => e.moodScore)
    { date := k, moodScore := bucketScore scores, entryCount := none })

/-- Function `getTrendData` as a store operation: it only ever reads the store
(`moodStorage.get` via `getEntries`; no `moodStorage.set` call occurs), so
the store it leaves behind is the store it was given. -/
def getTrendDataOp (store : List MoodEntry) (range : TrendRange)
    (now shift : Int) : List MoodTrendData × List MoodEntry :=
  (getTrendData store range now shift, store)

/-- Function `getTotalEntries` from
`src/frontend/src/components/Visualization/MoodTrendChart.tsx`:
`data.reduce((acc, d) => acc + (d.entryCount || 0), 0)`. -/
def getTotalEntries (data : List MoodTrendData) : Nat :=
  data.foldl (fun acc d => acc + d.entryCount.getD 0) 0

/-- The trend series as the (amended) specification describes it: one
bucket per `i < days`, keyed by the UTC calendar date of the `i`-th local
midnight of the window, holding the one-decimal rounded mean of the
scores of the stored entries whose timestamp is at or after the window
start and whose UTC calendar day equals that key (`0` when there are
none), with no entry count. -/
def specTrendSeries (store : List MoodEntry) (range : TrendRange)
    (now shift : Int) : List MoodTrendData :=
  let days := trendDays range
  let startDate : Int := localMidnight shift now - ((days : Int) - 1) * msPerDay
  (List.range days).map (fun (i : Nat) =>
    let k := utcDayOf (startDate + (i : Int) * msPerDay)
    let scores := ((store.filter (fun e => decide (startDate ≤ e.timestamp))).filter
      (fun e => decide (utcDayOf e.timestamp = k))).map (fun e => e.moodScore)
    { date := k, moodScore := bucketScore scores, entryCount := none })

/-! ## Chat interface (`AIChatInterface.tsx`) -/

/-- Message roles in the chat interface. -/
inductive Role where
  | user
  | assistant
  | system
  deriving Repr, DecidableEq

/-- The `Message` interface of `AIChatInterface.tsx`. `isCrisis` and
`isStreaming` are optional fields (`none` models an absent field; the
mock revision has no `isStreaming` field and never sets it). -/
structure Message where
  id : String
  role : Role
  content : String
  timestamp : Int
  isCrisis : Option Bool := none
  isStreaming : Option Bool := none
  deriving Repr, DecidableEq

/-- JS `toLowerCase` restricted to the simple one-to-one case mappings
(all strings in play are ASCII). -/
def jsToLower (s : String) : String := ⟨s.data.map Char.toLower⟩

/-- JS `String.prototype.trim`: strip leading and trailing whitespace. -/
def jsTrim (s : String) : String :=
  ⟨((s.data.dropWhile Char.isWhitespace).reverse.dropWhile Char.isWhitespace).reverse⟩

/-- JS `String.prototype.includes`: `sub` occurs contiguously in `s`. -/
def jsIncludes (s sub : String) : Bool :=
  s.toList.tails.any (fun t => sub.toList.isPrefixOf t)

/-- The configured crisis keyword list of `detectCrisis`. -/
def crisisKeywords : List String :=
  ["suicide", "kill myself", "end my life", "want to die",
   "self harm", "hurt myself", "no point living"]

/-- Function `detectCrisis`: lowercase the text, return whether some crisis
keyword occurs in it as a substring. -/
def detectCrisis (text : String) : Bool :=
  crisisKeywords.any (fun keyword => jsIncludes (jsToLower text) keyword)

/-- The shared pieces of component state `handleSendMessage` reads. -/
structure ChatState where
  messages : List Message
  inputValue : String
  isLoading : Bool
  deriving Repr, DecidableEq

namespace ChatMock

/-- Reply of the mock `callAIAPI` for exam-related messages. -/
def examReply : String :=
  "I understand exams can be stressful. Here are some tips:\n\n1. Take a 5-minute break every hour\n2. Try deep breathing exercises\n3. Break study material into smaller chunks\n4. Get enough sleep (7-8 hours)\n\nWould you like me to guide you through a quick relaxation exercise?"

/-- Reply of the mock `callAIAPI` for anxiety-related messages. -/
def anxiousReply : String :=
  "It\x27s okay to feel anxious. Let\x27s work through this together:\n\n• Acknowledge your feelings - they\x27re valid\n• Practice grounding: Name 5 things you can see around you\n• Take slow, deep breaths\n• Remember: This feeling is temporary\n\nWhat specifically is making you feel this way?"

/-- Reply of the mock `callAIAPI` for sadness-related messages. -/
def sadReply : String :=
  "I\x27m sorry you\x27re feeling down. Remember, it\x27s okay not to be okay. Would you like to:\n\n• Talk about what\x27s bothering you?\n• Try a mood-boosting activity?\n• Connect with support resources?\n\nI\x27m here to listen without judgment."

/-- Reply of the mock `callAIAPI` for sleep-related messages. -/
def sleepReply : String :=
  "Sleep problems are common with stress. Here\x27s what might help:\n\n• Maintain a regular sleep schedule\n• Avoid screens 1 hour before bed\n• Try progressive muscle relaxation\n• Keep your room cool and dark\n\nHow long have you been having trouble sleeping?"

/-- Default supportive reply of the mock `callAIAPI`. -/
def defaultReply : String :=
  "Thank you for sharing that with me. I\x27m here to support you. Can you tell me more about how you\x27re feeling? Understanding your emotions better will help me provide more personalized support."

/-- The mock `callAIAPI` (first revision of `AIChatInterface.tsx`):
a pure keyword-driven reply table over the lowercased message. -/
def callAIAPI (userMessage : String) : String :=
  let m := jsToLower userMessage
  if jsIncludes m "exam" || jsIncludes m "test" || jsIncludes m "study" then
    examReply
  else if jsIncludes m "anxious" || jsIncludes m "worried" || jsIncludes m "stress" then
    anxiousReply
  else if jsIncludes m "sad" || jsIncludes m "depressed" || jsIncludes m "down" then
    sadReply
  else if jsIncludes m "sleep" || jsIncludes m "tired" || jsIncludes m "insomnia" then
    sleepReply
  else
    defaultReply

/-- Content of the crisis support system message emitted on detection. -/
def crisisSupportContent : String :=
  "⚠️ CRISIS SUPPORT ACTIVATED\n\nI\x27m concerned about your safety. Please contact:\n\n🆘 Emergency: 000 (Australia)\n📞 Lifeline: 13 11 14 (24/7)\n💬 Beyond Blue: 1300 22 4636\n\nYou don\x27t have to go through this alone. Would you like me to help you connect with immediate support?"

/-- The user message object built by `handleSendMessage`; `isCrisis` is
set to `true` only when `detectCrisis` fired (otherwise absent). -/
def userMessageOf (input : String) (now : Int) (crisis : Bool) : Message :=
  { id := toString now
    role := .user
    content := input
    timestamp := now
    isCrisis := if crisis then some true else none }

/-- The crisis support system message appended on detection. -/
def crisisMessage (now : Int) : Message :=
  { id := toString (now + 1)
    role := .system
    content := crisisSupportContent
    timestamp := now
    isCrisis := some true }

/-- The assistant message carrying the mock AI reply. -/
def aiReplyMessage (input : String) (now : Int) : Message :=
  { id := toString (now + 1)
    role := .assistant
    content := callAIAPI input
    timestamp := now }

/-- Net effect of one `handleSendMessage` run in the mock revision. -/
structure HandlerResult where
  messages : List Message
  inputValue : String
  isLoading : Bool
  crisisCallbackInvoked : Bool
  aiCalled : Bool
  deriving Repr, DecidableEq

/-- Function `handleSendMessage` (mock revision, lines 101–162): guard on empty
input or in-flight request; detect crisis; on detection append the user
message and the crisis support message, stop loading, invoke
`onCrisisDetected` and return without calling the AI; otherwise append
the user message and the `callAIAPI` reply. -/
def handleSendMessage (st : ChatState) (now : Int) : HandlerResult :=
  if jsTrim st.inputValue = "" || st.isLoading then
    { messages := st.messages
      inputValue := st.inputValue
      isLoading := st.isLoading
      crisisCallbackInvoked := false
      aiCalled := false }
  else
    let isCrisis := detectCrisis st.inputValue
    let userMessage := userMessageOf st.inputValue now isCrisis
    if isCrisis then
      { messages := st.messages ++ [userMessage, crisisMessage now]
        inputValue := ""
        isLoading := false
        crisisCallbackInvoked := true
        aiCalled := false }
    else
      { messages := st.messages ++ [userMessage, aiReplyMessage st.inputValue now]
        inputValue := ""
        isLoading := false
        crisisCallbackInvoked := false
        aiCalled := true }

end ChatMock

namespace ChatStream

/-- One parsed server-sent event as dispatched by the `callAIAPIStream`
read loop: `metadata` carries `decision?.next_action` (`none` when the
event has no `decision`), `content` a text chunk, `done` and `error` are
as in the protocol, and `malformed` stands for a line whose JSON fails to
parse. -/
inductive StreamEvent where
  | metadata (nextAction : Option String)
  | content (chunk : String)
  | done
  | errorEvt (msg : String)
  | malformed
  deriving Repr, DecidableEq

/-- State accumulated by the `callAIAPIStream` read loop: the streaming
assistant message's content and `isStreaming` flag, whether
`onCrisisDetected` has been invoked, and the messages logged by
`console.error` in the SSE `catch` block. -/
structure StreamProcState where
  streamContent : String
  isStreaming : Bool
  crisisInvoked : Bool
  loggedErrors : List String
  deriving Repr, DecidableEq

/-- The event dispatch inside the `try` of the SSE loop. A `malformed`
line throws from `JSON.parse`; an `error` event executes
`throw new Error(data.content)`. -/
def handleStreamEvent (ev : StreamEvent) (st : StreamProcState) :
    Except String StreamProcState :=
  match ev with
  | .malformed => .error "SyntaxError"
  | .metadata nextAction =>
    if nextAction = some "crisis_flow" then
      .ok { st with crisisInvoked := true }
    else
      .ok st
  | .content chunk =>
    .ok { st with streamContent := st.streamContent ++ chunk }
  | .done => .ok { st with isStreaming := false }
  | .errorEvt msg => .error msg

/-- One `data:` line processed under the surrounding
`try { ... } catch (e) { console.error('Error parsing SSE data:', e); }`:
anything thrown inside the dispatch — including the deliberately thrown
`Error(data.content)` for an `error` event — is caught, logged, and the
loop continues with the state otherwise unchanged. -/
def processStreamLine (st : StreamProcState) (ev : StreamEvent) : StreamProcState :=
  match handleStreamEvent ev st with
  | .ok st' => st'
  | .error e => { st with loggedErrors := st.loggedErrors ++ [e] }

/-- Initial state of the read loop: the placeholder streaming assistant
message starts with empty content and `isStreaming: true`. -/
def initialStreamState : StreamProcState :=
  { streamContent := ""
    isStreaming := true
    crisisInvoked := false
    loggedErrors := [] }

/-- The `callAIAPIStream` read loop over the sequence of events of one
request, in arrival order. -/
def processStream (events : List StreamEvent) : StreamProcState :=
  events.foldl processStreamLine initialStreamState

/-- Outcome of the awaited `callAIAPIStream` call as seen by
`handleSendMessage`: either it resolves, leaving the messages it
appended, or it rejects with an error whose `name` is recorded
(messages it appended before rejecting remain as well). -/
inductive StreamOutcome where
  | resolved (appended : List Message)
  | rejected (appended : List Message) (errName : String)
  deriving Repr, DecidableEq

/-- The fixed fallback assistant message content of the `catch` block. -/
def fallbackContent : String :=
  "I apologize, I\x27m having trouble responding right now. Please try again in a moment."

/-- The fallback assistant message appended by the `catch` block. -/
def fallbackMessage (now : Int) : Message :=
  { id := toString (now + 1)
    role := .assistant
    content := fallbackContent
    timestamp := now }

/-- The user message object built by the streaming `handleSendMessage`
(no `isCrisis` flag is set in this revision). -/
def userMessageOf (input : String) (now : Int) : Message :=
  { id := toString now
    role := .user
    content := input
    timestamp := now }

/-- Net effect of one streaming `handleSendMessage` run. -/
structure HandlerResult where
  messages : List Message
  inputValue : String
  isLoading : Bool
  deriving Repr, DecidableEq

/-- Function `handleSendMessage` (streaming revision, lines 513–550): guard; append
the user message; `await callAIAPIStream`; in `catch`, return silently if
the error is an `AbortError` and otherwise append the fixed fallback
assistant message; in `finally`, always reset `isLoading` (the `finally`
also runs after the early `return` of the abort branch). -/
def handleSendMessage (st : ChatState) (now : Int) (outcome : StreamOutcome) :
    HandlerResult :=
  if jsTrim st.inputValue = "" || st.isLoading then
    { messages := st.messages
      inputValue := st.inputValue
      isLoading := st.isLoading }
  else
    let base := st.messages ++ [userMessageOf st.inputValue now]
    match outcome with
    | .resolved appended =>
      { messages := base ++ appended, inputValue := "", isLoading := false }
    | .rejected appended errName =>
      if errName = "AbortError" then
        { messages := base ++ appended, inputValue := "", isLoading := false }
      else
        { messages := base ++ appended ++ [fallbackMessage now]
          inputValue := ""
          isLoading := false }

end ChatStream

/-! ## General lemmas about the embedded operations -/

theorem getEntries_none_perm (store : List MoodEntry) :
    List.Perm (getEntries store none) store := by
  unfold getEntries
  exact List.perm_insertionSort tsDescOrder store

theorem bucketScore_congr {s t : List ℚ} (h : List.Perm s t) :
    bucketScore s = bucketScore t := by
  unfold bucketScore
  rw [h.sum_eq, h.length_eq]

theorem utcDayOf_add_mul_day (t i : Int) :
    utcDayOf (t + i * msPerDay) = utcDayOf t + i := by
  unfold utcDayOf msPerDay
  rw [Int.fdiv_eq_ediv _ (by norm_num), Int.fdiv_eq_ediv _ (by norm_num),
    Int.add_mul_ediv_right _ _ (by norm_num)]

theorem dedupKeepFirstAux_of_nodup :
    ∀ (fuel : Nat) (l : List Int), l.Nodup → l.length ≤ fuel →
      dedupKeepFirstAux fuel l = l := by
  intro fuel
  induction fuel with
  | zero =>
    intro l _ hlen
    cases l with
    | nil => rfl
    | cons k ks => simp at hlen
  | succ n ih =>
    intro l hnd hlen
    cases l with
    | nil => rfl
    | cons k ks =>
      have hk : k ∉ ks := (List.nodup_cons.mp hnd).1
      have hks : ks.Nodup := (List.nodup_cons.mp hnd).2
      have hfilter : ks.filter (fun x => !(x = k : Bool)) = ks := by
        apply List.filter_eq_self.mpr
        intro x hx
        simp only [Bool.not_eq_true', decide_eq_false_iff_not]
        intro hxk
        exact hk (hxk ▸ hx)
      simp only [dedupKeepFirstAux, hfilter]
      rw [ih ks hks (Nat.le_of_succ_le_succ (by simpa using hlen))]

theorem dedupKeepFirst_of_nodup (l : List Int) (h : l.Nodup) :
    dedupKeepFirst l = l :=
  dedupKeepFirstAux_of_nodup l.length l h le_rfl

theorem jsIncludes_iff (s sub : String) :
    jsIncludes s sub = true ↔ ∃ u v, u ++ sub.toList ++ v = s.toList := by
  unfold jsIncludes
  rw [List.any_eq_true]
  constructor
  · rintro ⟨t, ht, hp⟩
    rw [List.mem_tails] at ht
    rw [ List.isPrefixOf_iff_prefix] at hp
    obtain ⟨u, hu⟩ := ht
    obtain ⟨v, hv⟩ := hp
    exact ⟨u, v, by rw [List.append_assoc, hv, hu]⟩
  · rintro ⟨u, v, huv⟩
    refine ⟨sub.toList ++ v, ?_, ?_⟩
    · rw [List.mem_tails]
      exact ⟨u, by rw [← List.append_assoc, huv]⟩
    · rw [ List.isPrefixOf_iff_prefix]
      exact ⟨v, rfl⟩

theorem utcDayOf_eq_ediv (t : Int) : utcDayOf t = t / 86400000 :=
  Int.fdiv_eq_ediv t (by decide)

theorem localDayOf_eq_ediv (shift t : Int) : localDayOf shift t = (t + shift) / 86400000 :=
  Int.fdiv_eq_ediv _ (by decide)

/-- The generated date keys of `getTrendData` are the `days` consecutive
UTC day numbers starting at the UTC day of the window start. -/
theorem trend_keys_consecutive (start : Int) (days : Nat) :
    (List.range days).map (fun (i : Nat) => utcDayOf (start + (i : Int) * msPerDay)) =
      (List.range days).map (fun (i : Nat) => utcDayOf start + (i : Int)) :=
  List.map_congr_left (fun i _ => utcDayOf_add_mul_day start i)

theorem trend_keys_nodup (start : Int) (days : Nat) :
    ((List.range days).map
      (fun (i : Nat) => utcDayOf (start + (i : Int) * msPerDay))).Nodup := by
  rw [trend_keys_consecutive]
  refine (List.nodup_range days).map ?_
  intro a b hab
  simp only [] at hab
  omega

/-- The imperative grouping of `getTrendData` equalsspecified per-day
bucketing over the raw store: sorting only permutes each bucket's score
list, which leaves its mean and size unchanged. -/
theorem getTrendData_eq_specTrendSeries (store : List MoodEntry)
    (range : TrendRange) (now shift : Int) :
    getTrendData store range now shift = specTrendSeries store range now shift := by
  simp only [getTrendData, specTrendSeries]
  rw [dedupKeepFirst_of_nodup _ (trend_keys_nodup _ _), List.map_map]
  refine List.map_congr_left ?_
  intro i _
  simp only [Function.comp_apply]
  congr 1
  exact bucketScore_congr
    ((((getEntries_none_perm store).filter _).filter _).map _)

theorem detectCrisis_iff (text : String) :
    detectCrisis text = true ↔
      ∃ k ∈ crisisKeywords, ∃ u v, u ++ k.toList ++ v = (jsToLower text).toList := by
  unfold detectCrisis
  rw [List.any_eq_true]
  constructor
  · rintro ⟨k, hk, hinc⟩
    exact ⟨k, hk, (jsIncludes_iff _ _).mp hinc⟩
  · rintro ⟨k, hk, hdecomp⟩
    exact ⟨k, hk, (jsIncludes_iff _ _).mpr hdecomp⟩

/-! ## Concrete sample data for witnesses and counterexamples -/

/-- A sample entry owned by the fixed mock user. -/
def sampleEntryA : MoodEntry :=
  { id := "entry-1"
    userId := "user-1"
    moodScore := 5
    note := none
    timestamp := 0 }

/-- A sample entry owned by a different user than the mock user. -/
def sampleEntryB : MoodEntry :=
  { id := "b-1"
    userId := "user-2"
    moodScore := 3
    note := none
    timestamp := 50 }

/-- A clock instant: 02:00 UTC on (UTC and local) day 100, which is
10:00 local time in a UTC+8 locale. -/
def c2Now : Int := 100 * 86400000 + 2 * 3600000

/-- The UTC+8 offset (8 hours in milliseconds). -/
def c2Shift : Int := 28800000

/-- An entry recorded at the `c2Now` instant with score `7`. -/
def c2Entry : MoodEntry :=
  { id := "e7"
    userId := "user-1"
    moodScore := 7
    note := none
    timestamp := c2Now }

/-- Clock instant for the same-day averaging scenario: 04:00 UTC, day 100. -/
def c3Now : Int := 100 * 86400000 + 4 * 3600000

/-- Scenario entry with score 4, recorded 01:00 UTC on day 100. -/
def c3e4 : MoodEntry :=
  { id := "m4"
    userId := "user-1"
    moodScore := 4
    note := none
    timestamp := 100 * 86400000 + 1 * 3600000 }

/-- Scenario entry with score 6, recorded 02:00 UTC on day 100. -/
def c3e6 : MoodEntry :=
  { id := "m6"
    userId := "user-1"
    moodScore := 6
    note := none
    timestamp := 100 * 86400000 + 2 * 3600000 }

/-- Scenario entry with score 8, recorded 03:00 UTC on day 100. -/
def c3e8 : MoodEntry :=
  { id := "m8"
    userId := "user-1"
    moodScore := 8
    note := none
    timestamp := 100 * 86400000 + 3 * 3600000 }

/-- The three same-day scenario entries. -/
def c3Store : List MoodEntry := [c3e4, c3e6, c3e8]

end MHC

open MHC

/-! ## Claim theorems -/

/-- C8: creating a `MoodEntry` and immediately reading the entries back
returns an entry with the same id as the one the create call returned,
carrying the `moodScore` and `note` the user supplied. -/
theorem create_then_read_roundtrip (store : List MoodEntry)
    (data : MoodEntryData) (now : Int) :
    (createEntry store data now).1 ∈ getEntries (createEntry store data now).2 none ∧
    (createEntry store data now).1.moodScore = data.moodScore ∧
    (createEntry store data now).1.note = data.note ∧
    (createEntry store data now).1.id = "entry-" ++ toString now := by
  refine ⟨?_, rfl, rfl, rfl⟩
  rw [(getEntries_none_perm (createEntry store data now).2).mem_iff]
  simp [createEntry]

/-- C9: fetching trend data twice for the same range with no intervening
writes and with the clock still on the same local calendar day returns
identical bucketed series, and neither call modifies the store. -/
theorem trend_fetch_idempotent_readonly (store : List MoodEntry)
    (range : TrendRange) (shift n₁ n₂ : Int)
    (hday : localDayOf shift n₁ = localDayOf shift n₂) :
    (getTrendDataOp store range n₁ shift).2 = store ∧
    (getTrendDataOp ((getTrendDataOp store range n₁ shift).2) range n₂ shift).2 = store ∧
    (getTrendDataOp store range n₁ shift).1 =
      (getTrendDataOp ((getTrendDataOp store range n₁ shift).2) range n₂ shift).1 := by
  have hmid : localMidnight shift n₁ = localMidnight shift n₂ := by
    unfold localMidnight
    rw [hday]
  refine ⟨rfl, rfl, ?_⟩
  simp only [getTrendDataOp, getTrendData, hmid]

/-- Witness for C9 at a concrete input. -/
theorem trend_fetch_idempotent_readonly_witness :
    localDayOf 0 1000 = localDayOf 0 2000 ∧
    (getTrendDataOp [] TrendRange.week 1000 0).1 =
      (getTrendDataOp ((getTrendDataOp [] TrendRange.week 1000 0).2)
        TrendRange.week 2000 0).1 :=
  ⟨by decide,
   (trend_fetch_idempotent_readonly [] TrendRange.week 0 1000 2000 (by decide)).2.2⟩

/-- C10: for an id not present in the store, `updateEntry` throws
`Entry not found` and leaves the store unchanged, while `deleteEntry`
succeeds and also leaves the store unchanged; `deleteEntry` is
idempotent. -/
theorem missing_id_update_throws_delete_noop (store : List MoodEntry)
    (id : String) (data : MoodEntryData)
    (hmissing : ∀ e ∈ store, e.id ≠ id) :
    updateEntry store id data = .error "Entry not found" ∧
    deleteEntry store id = store ∧
    deleteEntry (deleteEntry store id) id = deleteEntry store id := by
  have hfilter : ∀ e ∈ store, (!(e.id = id : Bool)) = true := by
    intro e he
    simpa using hmissing e he
  refine ⟨?_, ?_, ?_⟩
  · unfold updateEntry
    have : store.findIdx? (fun e => e.id = id) = none := by
      rw [List.findIdx?_eq_none_iff]
      intro e he
      simpa using hmissing e he
    rw [this]
  · exact List.filter_eq_self.mpr hfilter
  · unfold deleteEntry
    rw [List.filter_eq_self.mpr hfilter, List.filter_eq_self.mpr hfilter]

/-- Witness for C10 at a concrete input. -/
theorem missing_id_update_throws_delete_noop_witness :
    (∀ e ∈ [sampleEntryA], e.id ≠ "entry-2") ∧
    updateEntry [sampleEntryA] "entry-2" ⟨7, none⟩ = .error "Entry not found" ∧
    deleteEntry [sampleEntryA] "entry-2" = [sampleEntryA] :=
  ⟨by decide,
   (missing_id_update_throws_delete_noop _ _ ⟨7, none⟩ (by decide)).1,
   (missing_id_update_throws_delete_noop _ _ ⟨7, none⟩ (by decide)).2.1⟩

/-- C5 (amended): the mock-mode service applies no per-user authorization
scoping at all — `getEntries` returns every stored entry, whoever owns
it, merely re-ordered by timestamp. -/
theorem mock_getEntries_ignores_ownership (store : List MoodEntry) :
    List.Perm (getEntries store none) store :=
  getEntries_none_perm store

/-- Counterexample to C5 as stated: a store holding only an entry owned
by `user-2` is returned in full by the mock `getEntries` — one row, not
zero rows, and no `AuthorizationError` exists on this path. -/
theorem mock_getEntries_cross_user_counterexample :
    getEntries [sampleEntryB] none = [sampleEntryB] ∧
    sampleEntryB.userId ≠ "user-1" := by
  constructor
  · rfl
  · decide

/-- C4 (amended): the mock `createEntry` performs no validation — for
every score, including every score violating the schema CHECK range
`[1,10]`, creation succeeds, returns the new entry carrying that score,
and appends it to the store (a side effect). -/
theorem createEntry_accepts_any_score (store : List MoodEntry)
    (data : MoodEntryData) (now : Int) :
    (createEntry store data now).2 = store ++ [(createEntry store data now).1] ∧
    (createEntry store data now).1.moodScore = data.moodScore ∧
    (¬ schemaMoodScoreCheck data.moodScore → (createEntry store data now).2 ≠ store) := by
  refine ⟨rfl, rfl, fun _ => ?_⟩
  intro hcontra
  have := congrArg List.length hcontra
  simp [createEntry] at this

/-- Witness for C4 at a concrete (schema-invalid) input. -/
theorem createEntry_accepts_any_score_witness :
    ¬ schemaMoodScoreCheck 42 ∧
    (createEntry [] ⟨42, none⟩ 1000).2 ≠ [] :=
  ⟨by decide, (createEntry_accepts_any_score [] ⟨42, none⟩ 1000).2.2 (by decide)⟩

/-- Counterexample to C4 as stated: creating an entry with score `42`
(outside `[1,10]`) does not fail and does not leave the store unchanged —
the entry is stored. -/
theorem createEntry_out_of_range_succeeds_counterexample :
    (createEntry [] ⟨42, none⟩ 1000).2.length = 1 ∧
    (createEntry [] ⟨42, none⟩ 1000).1.moodScore = 42 ∧
    ¬ schemaMoodScoreCheck 42 := by
  refine ⟨rfl, rfl, by decide⟩

/-- C1: a sendable message whose lowercased text contains a configured
crisis keyword as a substring makes `detectCrisis` return `true` and
takes the crisis branch — the crisis support message is emitted, the
crisis callback is invoked, no AI call happens; a message containing no
keyword makes detection return `false` and runs the normal reply path. -/
theorem crisis_keyword_takes_crisis_branch (st : ChatState) (now : Int)
    (hne : jsTrim st.inputValue ≠ "") (hld : st.isLoading = false) :
    (detectCrisis st.inputValue = true ↔
      ∃ k ∈ crisisKeywords, ∃ u v, u ++ k.toList ++ v = (jsToLower st.inputValue).toList) ∧
    ((∃ k ∈ crisisKeywords, ∃ u v, u ++ k.toList ++ v = (jsToLower st.inputValue).toList) →
      ChatMock.handleSendMessage st now =
        { messages := st.messages ++
            [ChatMock.userMessageOf st.inputValue now true, ChatMock.crisisMessage now]
          inputValue := ""
          isLoading := false
          crisisCallbackInvoked := true
          aiCalled := false }) ∧
    ((∀ k ∈ crisisKeywords, ∀ u v, u ++ k.toList ++ v ≠ (jsToLower st.inputValue).toList) →
      detectCrisis st.inputValue = false ∧
      ChatMock.handleSendMessage st now =
        { messages := st.messages ++
            [ChatMock.userMessageOf st.inputValue now false,
             ChatMock.aiReplyMessage st.inputValue now]
          inputValue := ""
          isLoading := false
          crisisCallbackInvoked := false
          aiCalled := true }) := by
  refine ⟨detectCrisis_iff st.inputValue, ?_, ?_⟩
  · intro hcontains
    have hcrisis : detectCrisis st.inputValue = true :=
      (detectCrisis_iff st.inputValue).mpr hcontains
    unfold ChatMock.handleSendMessage
    simp [hne, hld, hcrisis]
  · intro hnone
    have hcrisis : detectCrisis st.inputValue = false := by
      rw [← Bool.not_eq_true, detectCrisis_iff st.inputValue]
      rintro ⟨k, hk, u, v, huv⟩
      exact hnone k hk u v huv
    refine ⟨hcrisis, ?_⟩
    unfold ChatMock.handleSendMessage
    simp [hne, hld, hcrisis]

/-- Witness for C1: the crisis scenario message from the spec and a
keyword-free message, at concrete component states. -/
theorem crisis_keyword_takes_crisis_branch_witness :
    (jsTrim "I want to end my life" ≠ "" ∧ (false : Bool) = false) ∧
    (ChatMock.handleSendMessage
        { messages := [], inputValue := "I want to end my life", isLoading := false }
        1000).crisisCallbackInvoked = true ∧
    (ChatMock.handleSendMessage
        { messages := [], inputValue := "I want to end my life", isLoading := false }
        1000).aiCalled = false ∧
    detectCrisis "I feel great today" = false ∧
    (ChatMock.handleSendMessage
        { messages := [], inputValue := "I feel great today", isLoading := false }
        1000).aiCalled = true := by
  have hdet₁ : detectCrisis "I want to end my life" = true := by decide
  have hdet₂ : detectCrisis "I feel great today" = false := by decide
  have h₁ := (crisis_keyword_takes_crisis_branch
    { messages := [], inputValue := "I want to end my life", isLoading := false }
    1000 (by decide) rfl).2.1 ((detectCrisis_iff _).mp hdet₁)
  have h₂ := (crisis_keyword_takes_crisis_branch
    { messages := [], inputValue := "I feel great today", isLoading := false }
    1000 (by decide) rfl).2.2 (by
      intro k hk u v huv
      have := (detectCrisis_iff "I feel great today").mpr ⟨k, hk, u, v, huv⟩
      rw [hdet₂] at this
      exact Bool.false_ne_true this)
  exact ⟨⟨by decide, rfl⟩, by rw [h₁], by rw [h₁], h₂.1, by rw [h₂.2]⟩

/-- C6: when the streamed AI call rejects, the send handler catches the
exception (it is total on every outcome), appends the fixed fallback
assistant message for any non-abort error, appends no error message for
a user-cancellation `AbortError`, and in every case the `finally` block
leaves the loading flag `false`. -/
theorem stream_failure_falls_back_and_resets_loading (st : ChatState)
    (now : Int) (outcome : ChatStream.StreamOutcome)
    (hne : jsTrim st.inputValue ≠ "") (hld : st.isLoading = false) :
    (ChatStream.handleSendMessage st now outcome).isLoading = false ∧
    (∀ appended errName, outcome = .rejected appended errName →
      errName ≠ "AbortError" →
      (ChatStream.handleSendMessage st now outcome).messages =
        st.messages ++ [ChatStream.userMessageOf st.inputValue now] ++ appended ++
          [ChatStream.fallbackMessage now]) ∧
    (∀ appended, outcome = .rejected appended "AbortError" →
      (ChatStream.handleSendMessage st now outcome).messages =
        st.messages ++ [ChatStream.userMessageOf st.inputValue now] ++ appended) ∧
    (∀ appended, outcome = .resolved appended →
      (ChatStream.handleSendMessage st now outcome).messages =
        st.messages ++ [ChatStream.userMessageOf st.inputValue now] ++ appended) := by
  refine ⟨?_, ?_, ?_, ?_⟩
  · unfold ChatStream.handleSendMessage
    rcases outcome with appended | ⟨appended, errName⟩
    · simp [hne, hld]
    · by_cases habort : errName = "AbortError" <;> simp [hne, hld, habort]
  · rintro appended errName rfl hab
    unfold ChatStream.handleSendMessage
    simp [hne, hld, hab]
  · rintro appended rfl
    unfold ChatStream.handleSendMessage
    simp [hne, hld]
  · rintro appended rfl
    unfold ChatStream.handleSendMessage
    simp [hne, hld]

/-- Witness for C6: a concrete timeout-style rejection. -/
theorem stream_failure_falls_back_and_resets_loading_witness :
    (jsTrim "hello" ≠ "" ∧ (false : Bool) = false ∧ ("TimeoutError" : String) ≠ "AbortError") ∧
    (ChatStream.handleSendMessage
        { messages := [], inputValue := "hello", isLoading := false } 1000
        (.rejected [] "TimeoutError")).isLoading = false ∧
    (ChatStream.handleSendMessage
        { messages := [], inputValue := "hello", isLoading := false } 1000
        (.rejected [] "TimeoutError")).messages =
      [] ++ [ChatStream.userMessageOf "hello" 1000] ++ [] ++
        [ChatStream.fallbackMessage 1000] := by
  have h := stream_failure_falls_back_and_resets_loading
    { messages := [], inputValue := "hello", isLoading := false } 1000
    (.rejected [] "TimeoutError") (by decide) rfl
  exact ⟨⟨by decide, rfl, by decide⟩, h.1, h.2.1 [] "TimeoutError" rfl (by decide)⟩

/-- C7 (code evaluated at the failing input): an `error` server-sent
event does not raise — `handleStreamEvent` does throw the event's
message, but the enclosing SSE parse `catch` swallows it, so the line
processor merely logs it and the stream continues: content chunks
around the error event still concatenate, a later crisis `metadata`
event still invokes the callback, and `done` still ends streaming. -/
theorem stream_error_event_swallowed_not_raised :
    ChatStream.handleStreamEvent (.errorEvt "boom") ChatStream.initialStreamState =
      .error "boom" ∧
    ChatStream.processStreamLine ChatStream.initialStreamState (.errorEvt "boom") =
      { streamContent := ""
        isStreaming := true
        crisisInvoked := false
        loggedErrors := ["boom"] } ∧
    ChatStream.processStream
      [.content "Hel", .errorEvt "boom", .content "lo",
       .metadata (some "crisis_flow"), .done] =
      { streamContent := "Hello"
        isStreaming := false
        crisisInvoked := true
        loggedErrors := ["boom"] } := by
  refine ⟨rfl, rfl, by decide⟩

/-- C2 (amended): for every stored list and range, `getTrendData`
returns exactly 7 (week) or 30 (month) buckets, keyed by the consecutive
UTC calendar days of the window's local midnights (the last being the
local midnight of today); each bucket's `moodScore` is the one-decimal
rounded mean of the scores of the entries whose timestamp is within the
window and whose UTC calendar day equals the bucket's key, and 0 for a
keyed day with no such entries (`specTrendSeries`). Bucketing is thus by
UTC date, not by the caller's local date; the two coincide when the
local offset is zero. -/
theorem trend_series_shape_and_utc_bucketing (store : List MoodEntry)
    (range : TrendRange) (now shift : Int) :
    getTrendData store range now shift = specTrendSeries store range now shift ∧
    (getTrendData store range now shift).length = trendDays range ∧
    (getTrendData store range now shift).map (fun b => b.date) =
      (List.range (trendDays range)).map
        (fun (i : Nat) =>
          utcDayOf (localMidnight shift now - ((trendDays range : Int) - 1) * msPerDay)
            + (i : Int)) := by
  refine ⟨getTrendData_eq_specTrendSeries store range now shift, ?_, ?_⟩
  · rw [getTrendData_eq_specTrendSeries]
    simp [specTrendSeries]
  · rw [getTrendData_eq_specTrendSeries]
    simp only [specTrendSeries, List.map_map]
    refine List.map_congr_left ?_
    intro i _
    simp only [Function.comp_apply]
    exact utcDayOf_add_mul_day _ i

/-- Counterexample to C2 as stated: in a UTC+8 locale, an entry recorded
today (same local calendar day as the clock) with score `7` lands in no
bucket at all — every one of the 7 returned buckets has `moodScore = 0`,
so today's bucket does not hold the mean of today's entries. -/
theorem trend_local_day_bucketing_counterexample :
    localDayOf c2Shift c2Entry.timestamp = localDayOf c2Shift c2Now ∧
    c2Entry.moodScore = 7 ∧
    (getTrendData [c2Entry] TrendRange.week c2Now c2Shift).length = 7 ∧
    (∀ b ∈ getTrendData [c2Entry] TrendRange.week c2Now c2Shift, b.moodScore = 0) := by
  refine ⟨by decide, rfl, by decide, by decide⟩

/-- C3 (amended): `getTrendData` returns no per-bucket entry count —
`entryCount` is absent (`none`) on every bucket of every series — and
there is no `today` range (only `week`/`month`); in the scenario of
three entries scored 4, 6, 8 on today's calendar day (UTC locale), the
`week` series has 7 buckets whose last (today's) bucket averages `6`,
and the chart's total-entries reduction over the series yields `0`
because no bucket carries an `entryCount`. -/
theorem trend_buckets_have_no_entryCount :
    (∀ (store : List MoodEntry) (range : TrendRange) (now shift : Int),
      ∀ b ∈ getTrendData store range now shift, b.entryCount = none) ∧
    (getTrendData c3Store TrendRange.week c3Now 0).length = 7 ∧
    ((getTrendData c3Store TrendRange.week c3Now 0).getLast?).map
      (fun b => b.moodScore) = some 6 ∧
    getTotalEntries (getTrendData c3Store TrendRange.week c3Now 0) = 0 := by
  refine ⟨?_, by decide, ?_, by decide⟩
  · intro store range now shift b hb
    simp only [getTrendData, List.mem_map] at hb
    obtain ⟨k, _, rfl⟩ := hb
    rfl
  · rw [getTrendData_eq_specTrendSeries]
    simp only [specTrendSeries, trendDays, c3Store, c3e4, c3e6, c3e8, c3Now,
      localMidnight, localDayOf_eq_ediv, utcDayOf_eq_ediv, msPerDay]
    norm_num [List.range_succ, bucketScore, round1, jsRound]

/-- Witness for C3 at a concrete bucket of a concrete series. -/
theorem trend_buckets_have_no_entryCount_witness :
    (⟨-6, 0, none⟩ : MoodTrendData) ∈ getTrendData [] TrendRange.week 0 0 ∧
    (⟨-6, 0, none⟩ : MoodTrendData).entryCount = none :=
  ⟨by decide,
   trend_buckets_have_no_entryCount.1 [] TrendRange.week 0 0 _ (by decide)⟩

/-- Counterexample to C3 as stated: for the three same-day entries the
aggregation does not return one bucket with `entryCount 3` — the closest
range, `week`, returns 7 buckets, every bucket's `entryCount` is absent,
and the chart's entry-count total over the series is 0, not 3. -/
theorem trend_no_entry_count_counterexample :
    (getTrendData c3Store TrendRange.week c3Now 0).length = 7 ∧
    (∀ b ∈ getTrendData c3Store TrendRange.week c3Now 0, b.entryCount = none) ∧
    getTotalEntries (getTrendData c3Store TrendRange.week c3Now 0) = 0 := by
  refine ⟨by decide, by decide, by decide⟩
